import Mathlib

/-!
# Verification of the NETFLIX-CLONE-CLIENT data layer

Shallow embedding of the repository's API client (`src/lib/api.ts`),
movie query hooks (`src/hooks/useMovies.ts`), watchlist hooks
(`src/hooks/useWatchlist.ts`) and the route components that consume
them (`src/routes/index.tsx`, `src/routes/movie.$id.tsx`,
`src/routes/watchlist.tsx`).

The embedding models HTTP traffic explicitly: a query function is a
function from a backend (mapping URLs to response bodies) to the list
of requests it issues together with the value it returns; mutations
produce an event trace (request sent, server response, cache
invalidations, toasts) so that ordering claims can be stated.
-/

namespace NetflixClone

/-! ## HTTP requests and headers (axios instance `api` in src/lib/api.ts) -/

/-- An HTTP header: a name/value pair. -/
structure Header where
  name : String
  value : String
deriving DecidableEq, Repr

/-- Look up a header by name (first match), as axios header access does. -/
def getHeader : List Header → String → Option String
  | [], _ => none
  | h :: t, n => if h.name = n then some h.value else getHeader t n

/-- `config.headers.Authorization = v`: overwrite the header if present,
append it otherwise. -/
def setHeader (hs : List Header) (n v : String) : List Header :=
  if hs.any (fun h => h.name = n) then
    hs.map (fun h => if h.name = n then ⟨n, v⟩ else h)
  else
    hs ++ [⟨n, v⟩]

/-- The default headers the axios instance is created with
(`axios.create({ headers: { "Content-Type": "application/json" } })`). -/
def defaultHeaders : List Header := [⟨"Content-Type", "application/json"⟩]

/-! ## Request interceptor (`api.interceptors.request.use`)

The token getter is a closure variable `getTokenFunction`, `null` until
`setTokenGetter` is called.  A registered getter, when awaited, either
throws or yields `string | null`.  We model one invocation of the
getter by its observable outcome. -/

/-- Outcome of awaiting the registered token getter once. -/
inductive TokenGetterResult
  /-- The getter threw (the `await getTokenFunction()` rejected). -/
  | throws
  /-- The getter resolved with `t` (`none` models JS `null`). -/
  | value (t : Option String)
deriving DecidableEq, Repr

/-- The module state: `getTokenFunction` is `none` before any
`setTokenGetter` call, `some r` after registration (with `r` the outcome
the registered getter produces when invoked). -/
def setTokenGetter (r : TokenGetterResult) : Option TokenGetterResult :=
  some r

/-- The request interceptor's fulfilled handler.  Given the module state
`getter` and the request's headers, it returns the headers of the request
that is actually sent.  Mirrors:

```
if (getTokenFunction) {
  try {
    const token = await getTokenFunction();
    if (token) { config.headers.Authorization = `Bearer ${token}`; }
  } catch (error) { console.error("Failed to get auth token:", error); }
}
return config;
```

JS truthiness: `if (token)` is false for `null` and for the empty
string. -/
def requestInterceptor (getter : Option TokenGetterResult)
    (hs : List Header) : List Header :=
  match getter with
  | none => hs
  | some .throws => hs
  | some (.value none) => hs
  | some (.value (some t)) =>
      if t = "" then hs else setHeader hs "Authorization" ("Bearer " ++ t)

/-- The interceptor as axios runs it: an async function whose rejection
would fail the request.  The `try`/`catch` means it never rejects, so the
embedding always returns `Except.ok`. -/
def requestInterceptorRun (getter : Option TokenGetterResult)
    (hs : List Header) : Except String (List Header) :=
  Except.ok (requestInterceptor getter hs)

/-! ## Response interceptor (`api.interceptors.response.use`) -/

/-- The `data` object of an axios error response (the parsed body), with
its optional `error` field (`error.response?.data?.error`). -/
structure ErrData where
  error : Option String
deriving DecidableEq, Repr

/-- `error.response`: present when the server answered with an error
status. -/
structure ErrResponse where
  status : Nat
  data : Option ErrData
deriving DecidableEq, Repr

/-- An axios error as the response interceptor's rejected handler sees
it: `error.response` (server replied), `error.request` (request sent, no
reply), and `error.message`. -/
structure ApiError where
  response : Option ErrResponse
  requestMade : Bool
  message : String
deriving DecidableEq, Repr

/-- HTTP status codes used by the interceptor's `switch` (the
`http-status-codes` constants). -/
def UNAUTHORIZED : Nat := 401
def FORBIDDEN : Nat := 403
def NOT_FOUND : Nat := 404
def CONFLICT : Nat := 409
def INTERNAL_SERVER_ERROR : Nat := 500

/-- The console message the rejected handler logs for an error. -/
def errorLog (e : ApiError) : String :=
  match e.response with
  | some r =>
      if r.status = UNAUTHORIZED then "Unauthorized. Please log in again."
      else if r.status = FORBIDDEN then "Forbidden. You don't have permission."
      else if r.status = NOT_FOUND then "Resource not found."
      else if r.status = CONFLICT then "Too many requests. Please slow down."
      else if r.status = INTERNAL_SERVER_ERROR then
        "Server error. Please try again later."
      else
        "Error: " ++ (match r.data with
          | some d => match d.error with
            | some s => if s = "" then "Something went wrong" else s
            | none => "Something went wrong"
          | none => "Something went wrong")
  | none =>
      if e.requestMade then "No response from server. Check your connection."
      else "Request error: " ++ e.message

/-- The response interceptor's fulfilled handler: `return response`. -/
def responseInterceptorFulfilled {α : Type} (response : α) : α := response

/-- The response interceptor's rejected handler: after logging, it
`return Promise.reject(error)`.  The result pairs the log line with the
propagated outcome. -/
def responseInterceptorRejected {α : Type} (e : ApiError) :
    String × Except ApiError α :=
  (errorLog e, Except.error e)

/-! ## Query hooks (src/hooks/useMovies.ts, src/hooks/useWatchlist.ts)

Every query function is `const { data } = await api.get(url); return
data.data;` except `useWatchlistStatus`, which returns the whole body
`data`.  We model the backend as a map from GET URLs to response bodies
and record the URLs a query function requests. -/

/-- A response body `{ data: ... }` as the backend returns it; `data`
is the payload. -/
structure ApiBody (α : Type) where
  data : α
deriving DecidableEq, Repr

/-- A backend for the GET endpoints: maps each URL to a response body. -/
def Backend (α : Type) : Type := String → ApiBody α

/-- One run of a query function: the GET URLs issued, in order, and the
value returned to React Query. -/
structure QueryRun (α : Type) where
  requests : List String
  result : α
deriving DecidableEq, Repr

/-- `const { data } = await api.get(url); return data.data;` -/
def getDataData {α : Type} (backend : Backend α) (url : String) :
    QueryRun α :=
  ⟨[url], (backend url).data⟩

/-- The filter argument of `useDiscoverMovies`. -/
structure DiscoverFilters where
  with_genres : Option String
  year : Option Int
  sort_by : Option String
  page : Option Int
deriving DecidableEq, Repr

/-- One component of a React Query key (keys mix strings, numbers and
the discover filter object).  `num none` models the JS number `NaN`. -/
inductive KeyPart
  | str (s : String)
  | num (n : Option Int)
  | filt (f : DiscoverFilters)
deriving DecidableEq, Repr

/-- The `contentType` union `"movie" | "tv"`. -/
inductive ContentType
  | movie
  | tv
deriving DecidableEq, Repr

/-- The string a `contentType` value denotes. -/
def ContentType.str : ContentType → String
  | .movie => "movie"
  | .tv => "tv"

/-- JS `!!x` for a number that may be `NaN` (`none`): false exactly for
`NaN` and `0`. -/
def truthyNum (x : Option Int) : Bool :=
  match x with
  | none => false
  | some n => n != 0

/-- String interpolation of a JS number that may be `NaN`. -/
def numStr (x : Option Int) : String :=
  match x with
  | none => "NaN"
  | some n => toString n

/-- A `useQuery` declaration: key, query function, `enabled` flag and
`staleTime` (milliseconds).  `α` is the backend payload, `β` the value
the query function returns. -/
structure QueryDecl (α β : Type) where
  queryKey : List KeyPart
  queryFn : Backend α → QueryRun β
  enabled : Bool
  staleTime : Nat

/-- `useTrendingMovies(timeWindow = "week")`. -/
def useTrendingMovies {α : Type} (timeWindow : String) : QueryDecl α α where
  queryKey := [.str "movies", .str "trending", .str timeWindow]
  queryFn := fun backend =>
    getDataData backend ("/movies/trending?timeWindow=" ++ timeWindow)
  enabled := true
  staleTime := 1000 * 60 * 5

/-- `usePopularMovies(page = 1)`. -/
def usePopularMovies {α : Type} (page : Int) : QueryDecl α α where
  queryKey := [.str "movies", .str "popular", .num (some page)]
  queryFn := fun backend =>
    getDataData backend ("/movies/popular?page=" ++ toString page)
  enabled := true
  staleTime := 1000 * 60 * 10

/-- `useTopRatedMovies(page = 1)`. -/
def useTopRatedMovies {α : Type} (page : Int) : QueryDecl α α where
  queryKey := [.str "movies", .str "top-rated", .num (some page)]
  queryFn := fun backend =>
    getDataData backend ("/movies/top-rated?page=" ++ toString page)
  enabled := true
  staleTime := 1000 * 60 * 10

/-- `useNowPlayingMovies(page = 1)`. -/
def useNowPlayingMovies {α : Type} (page : Int) : QueryDecl α α where
  queryKey := [.str "movies", .str "now-playing", .num (some page)]
  queryFn := fun backend =>
    getDataData backend ("/movies/now-playing?page=" ++ toString page)
  enabled := true
  staleTime := 1000 * 60 * 3

/-- `useUpcomingMovies(page = 1)`. -/
def useUpcomingMovies {α : Type} (page : Int) : QueryDecl α α where
  queryKey := [.str "movies", .str "upcoming", .num (some page)]
  queryFn := fun backend =>
    getDataData backend ("/movies/upcoming?page=" ++ toString page)
  enabled := true
  staleTime := 1000 * 60 * 10

/-- `useMovieDetails(movieId)`; `enabled: !!movieId`. -/
def useMovieDetails {α : Type} (movieId : Option Int) : QueryDecl α α where
  queryKey := [.str "movie", .num movieId]
  queryFn := fun backend => getDataData backend ("/movies/" ++ numStr movieId)
  enabled := truthyNum movieId
  staleTime := 1000 * 60 * 30

/-- `useMovieCredits(movieId)`; `enabled: !!movieId`. -/
def useMovieCredits {α : Type} (movieId : Option Int) : QueryDecl α α where
  queryKey := [.str "movie", .num movieId, .str "credits"]
  queryFn := fun backend =>
    getDataData backend ("/movies/" ++ numStr movieId ++ "/credits")
  enabled := truthyNum movieId
  staleTime := 1000 * 60 * 30

/-- `useMovieVideos(movieId)`; `enabled: !!movieId`. -/
def useMovieVideos {α : Type} (movieId : Option Int) : QueryDecl α α where
  queryKey := [.str "movie", .num movieId, .str "videos"]
  queryFn := fun backend =>
    getDataData backend ("/movies/" ++ numStr movieId ++ "/videos")
  enabled := truthyNum movieId
  staleTime := 1000 * 60 * 30

/-- `useSimilarMovies(movieId, page = 1)`; `enabled: !!movieId`. -/
def useSimilarMovies {α : Type} (movieId : Option Int) (page : Int) :
    QueryDecl α α where
  queryKey := [.str "movie", .num movieId, .str "similar", .num (some page)]
  queryFn := fun backend =>
    getDataData backend
      ("/movies/" ++ numStr movieId ++ "/similar?page=" ++ toString page)
  enabled := truthyNum movieId
  staleTime := 1000 * 60 * 10

/-- `useMovieRecommendations(movieId, page = 1)`; `enabled: !!movieId`. -/
def useMovieRecommendations {α : Type} (movieId : Option Int) (page : Int) :
    QueryDecl α α where
  queryKey :=
    [.str "movie", .num movieId, .str "recommendations", .num (some page)]
  queryFn := fun backend =>
    getDataData backend
      ("/movies/" ++ numStr movieId ++ "/recommendations?page=" ++
        toString page)
  enabled := truthyNum movieId
  staleTime := 1000 * 60 * 10

/-- `useSearchMovies(query, page = 1)`; `enabled: query.length > 0`.
`encode` stands for the JS builtin `encodeURIComponent`. -/
def useSearchMovies {α : Type} (encode : String → String) (query : String)
    (page : Int) : QueryDecl α α where
  queryKey := [.str "movies", .str "search", .str query, .num (some page)]
  queryFn := fun backend =>
    getDataData backend
      ("/movies/search?query=" ++ encode query ++ "&page=" ++ toString page)
  enabled := query.length > 0
  staleTime := 1000 * 60 * 5

/-- The query string `useDiscoverMovies` builds with `URLSearchParams`:
each filter is appended only when truthy (so `year: 0`, `page: 0` and
`with_genres: ""` are skipped), and `toString()` joins `k=v` pairs with
`&`, percent-encoding values via `encode`. -/
def discoverParams (encode : String → String) (f : DiscoverFilters) :
    String :=
  String.intercalate "&"
    ((match f.with_genres with
      | some g => if g = "" then [] else ["with_genres=" ++ encode g]
      | none => []) ++
     (match f.year with
      | some y => if y = 0 then [] else ["year=" ++ encode (toString y)]
      | none => []) ++
     (match f.sort_by with
      | some s => if s = "" then [] else ["sort_by=" ++ encode s]
      | none => []) ++
     (match f.page with
      | some p => if p = 0 then [] else ["page=" ++ encode (toString p)]
      | none => []))

/-- `useDiscoverMovies(filters)`. -/
def useDiscoverMovies {α : Type} (encode : String → String)
    (filters : DiscoverFilters) : QueryDecl α α where
  queryKey := [.str "movies", .str "discover", .filt filters]
  queryFn := fun backend =>
    getDataData backend ("/movies/discover?" ++ discoverParams encode filters)
  enabled := true
  staleTime := 1000 * 60 * 10

/-- `useMovieGenres()`. -/
def useMovieGenres {α : Type} : QueryDecl α α where
  queryKey := [.str "movies", .str "genres"]
  queryFn := fun backend => getDataData backend "/movies/genres"
  enabled := true
  staleTime := 1000 * 60 * 60 * 24

/-- `useWatchlist()` (src/hooks/useWatchlist.ts). -/
def useWatchlist {α : Type} : QueryDecl α α where
  queryKey := [.str "watchlist"]
  queryFn := fun backend => getDataData backend "/watchlist"
  enabled := true
  staleTime := 1000 * 60 * 2

/-- `useWatchlistStatus(tmdbId, contentType)`: returns the whole body
`data` (not `data.data`); `enabled: !!tmdbId && !!contentType`. -/
def useWatchlistStatus {α : Type} (tmdbId : Option Int)
    (contentType : ContentType) : QueryDecl α (ApiBody α) where
  queryKey :=
    [.str "watchlist", .str "status", .num tmdbId, .str contentType.str]
  queryFn := fun backend =>
    let url := "/watchlist/check?tmdbId=" ++ numStr tmdbId ++
      "&contentType=" ++ contentType.str
    ⟨[url], backend url⟩
  enabled := truthyNum tmdbId && !(contentType.str = "")
  staleTime := 1000 * 60 * 2

/-- The GET requests a mounted query issues: React Query runs the query
function only when the query is `enabled`. -/
def issuedRequests {α β : Type} (q : QueryDecl α β) (backend : Backend α) :
    List String :=
  if q.enabled then (q.queryFn backend).requests else []

/-- The settled React Query state of a query as the components read it:
`data` and `isLoading`.  A disabled query never fetches, so its `data`
stays `undefined` and `isLoading` (= `isPending && isFetching`) is
false; an enabled query that has settled holds the query function's
result. -/
structure QueryState (β : Type) where
  data : Option β
  isLoading : Bool
deriving DecidableEq, Repr

/-- The settled state of a mounted query against `backend`. -/
def settledState {α β : Type} (q : QueryDecl α β) (backend : Backend α) :
    QueryState β :=
  if q.enabled then ⟨some (q.queryFn backend).result, false⟩
  else ⟨none, false⟩

/-! ## Watchlist mutations (src/hooks/useWatchlist.ts)

A mutation run is modelled as an event trace: the request sent by the
mutation function, the server's response, then the effects of the
`onSuccess` / `onError` callback (cache invalidations and toasts), in
the order they happen. -/

/-- The item argument of `useAddToWatchlist`'s mutation function. -/
structure WatchlistItem where
  tmdbId : Option Int
  contentType : ContentType
  title : String
  posterPath : Option String
  note : Option String
deriving DecidableEq, Repr

/-- HTTP method of a mutation request. -/
inductive Method
  | get
  | post
  | delete
deriving DecidableEq, Repr

/-- A mutation request: method, URL and optional JSON body. -/
structure Request where
  method : Method
  url : String
  body : Option WatchlistItem
deriving DecidableEq, Repr

/-- An observable event during a mutation run. -/
inductive Event
  /-- The mutation function sent `r` to the server. -/
  | request (r : Request)
  /-- The server's outcome arrived (`ok` = 2xx, `error e` = rejection). -/
  | response (outcome : Except ApiError Unit)
  /-- `queryClient.invalidateQueries({ queryKey: key })`. -/
  | invalidate (key : List KeyPart)
  /-- `toast.success(msg)`. -/
  | toastSuccess (msg : String)
  /-- `toast.error(msg)`. -/
  | toastError (msg : String)
deriving Repr

/-- `error.response?.data?.error`: the optional-chained error field of
a server error. -/
def errField (e : ApiError) : Option String :=
  match e.response with
  | none => none
  | some r =>
    match r.data with
    | none => none
    | some d => d.error

/-- `error.response?.data?.error || fallback`: JS `||` falls back on
`undefined` and on the (falsy) empty string. -/
def mutationErrorMessage (e : ApiError) (fallback : String) : String :=
  match errField e with
  | some s => if s = "" then fallback else s
  | none => fallback

/-- One run of `useAddToWatchlist().mutate(item)` whose server outcome
is `outcome`: the mutation function posts `item` to `/watchlist`; after
the response, `onSuccess` invalidates `["watchlist"]` and shows the
success toast, while `onError` only shows the error toast. -/
def runAddToWatchlist (item : WatchlistItem)
    (outcome : Except ApiError Unit) : List Event :=
  [.request ⟨.post, "/watchlist", some item⟩, .response outcome] ++
  match outcome with
  | .ok _ =>
      [.invalidate [.str "watchlist"], .toastSuccess "Added to watchlist!"]
  | .error e =>
      [.toastError (mutationErrorMessage e "Failed to add to watchlist")]

/-- One run of `useRemoveFromWatchlist().mutate(watchlistId)` whose
server outcome is `outcome`: the mutation function sends `DELETE
/watchlist/{watchlistId}`; after the response, `onSuccess` invalidates
`["watchlist"]` and shows the success toast, while `onError` only shows
the error toast. -/
def runRemoveFromWatchlist (watchlistId : String)
    (outcome : Except ApiError Unit) : List Event :=
  [.request ⟨.delete, "/watchlist/" ++ watchlistId, none⟩,
   .response outcome] ++
  match outcome with
  | .ok _ =>
      [.invalidate [.str "watchlist"], .toastSuccess "Removed from watchlist"]
  | .error e =>
      [.toastError (mutationErrorMessage e "Failed to remove from watchlist")]

/-- The request `useAddToWatchlist`'s mutation function issues, as a
function of the cached `["watchlist"]` query data visible in the hook's
scope (through `queryClient`) and of the `item` argument.  The source's
mutation function reads only `item`:
`const { data } = await api.post("/watchlist", item);`. -/
def addMutationRequest (cache : Option (List WatchlistItem))
    (item : WatchlistItem) : Request :=
  ⟨.post, "/watchlist", some item⟩

/-! ## Route components -/

/-- What `MovieDetailPage` (src/routes/movie.$id.tsx) renders, by
branch. -/
inductive DetailRender (α : Type)
  | spinner
  | notFound
  | detail (movie : α)
deriving DecidableEq, Repr

/-- The branch structure of `MovieDetailPage`: the spinner while
`isLoading`, the "Movie Not Found" branch when `!movie`, else the
detail view. -/
def movieDetailBranch {α : Type} (isLoading : Bool) (movie : Option α) :
    DetailRender α :=
  if isLoading then .spinner
  else
    match movie with
    | none => .notFound
    | some m => .detail m

/-- `MovieDetailPage` rendered against a settled backend: the page
feeds `useMovieDetails(movieId)`'s state into its branches. -/
def movieDetailPage {α : Type} (movieId : Option Int)
    (backend : Backend α) : DetailRender α :=
  let st := settledState (useMovieDetails movieId) backend
  movieDetailBranch st.isLoading st.data

/-- A page of list results (`data.data` of the catalog endpoints),
with its `results` array. -/
structure MoviesPage (α : Type) where
  results : List α
deriving DecidableEq, Repr

/-- `movies?.results || []`: the movie array `HomePage` hands to a
`MovieRow` from a query's data. -/
def rowMovies {α : Type} (d : Option (MoviesPage α)) : List α :=
  match d with
  | none => []
  | some p => p.results

/-- What `WatchlistPage` (src/routes/watchlist.tsx) renders inside
`<SignedIn>`, by branch. -/
inductive WatchlistRender (α : Type)
  | loadingSkeleton
  | empty
  | grid (items : List α)
deriving DecidableEq, Repr

/-- The branch structure of `WatchlistPage`: skeleton while
`isLoading`, the empty state when `!watchlist || watchlist.length ===
0`, else the grid of exactly the fetched items. -/
def watchlistPageBranch {α : Type} (isLoading : Bool)
    (watchlist : Option (List α)) : WatchlistRender α :=
  if isLoading then .loadingSkeleton
  else
    match watchlist with
    | none => .empty
    | some l => if l.length = 0 then .empty else .grid l

/-- `WatchlistPage` rendered against a settled backend: the page feeds
`useWatchlist()`'s state into its branches and holds no other watchlist
state. -/
def watchlistPage {α : Type} (backend : Backend (List α)) :
    WatchlistRender α :=
  let st := settledState useWatchlist backend
  watchlistPageBranch st.isLoading st.data

/-- The three homepage catalog queries (`HomePage` in
src/routes/index.tsx calls the hooks with their defaults:
`useTrendingMovies()`, `usePopularMovies()`, `useTopRatedMovies()`). -/
def homeTrending {α : Type} : QueryDecl (MoviesPage α) (MoviesPage α) :=
  useTrendingMovies "week"

/-- The homepage popular query (`usePopularMovies()`, default page 1). -/
def homePopular {α : Type} : QueryDecl (MoviesPage α) (MoviesPage α) :=
  usePopularMovies 1

/-- The homepage top-rated query (`useTopRatedMovies()`, default page
1). -/
def homeTopRated {α : Type} : QueryDecl (MoviesPage α) (MoviesPage α) :=
  useTopRatedMovies 1

/-- The movies a homepage row shows once its query settled. -/
def homeRowMovies {α : Type}
    (q : QueryDecl (MoviesPage α) (MoviesPage α))
    (backend : Backend (MoviesPage α)) : List α :=
  rowMovies (settledState q backend).data

/-- Whether the character list `l` starts with the pattern `pat`. -/
def charsStartWith : List Char → List Char → Bool
  | _, [] => true
  | [], _ :: _ => false
  | a :: as, b :: bs => a == b && charsStartWith as bs

/-- Whether the character list `l` contains `pat` as a contiguous
substring. -/
def charsContain : List Char → List Char → Bool
  | [], pat => charsStartWith [] pat
  | a :: t, pat => charsStartWith (a :: t) pat || charsContain t pat

/-- Whether `url` carries a query parameter named `pname` (the
substring `pname=` occurs in it). -/
def hasQueryParam (url pname : String) : Bool :=
  charsContain url.data (pname ++ "=").data

/-- The single GET URL the homepage trending row requests. -/
def homeTrendingRequest : String := "/movies/trending?timeWindow=week"

/-! ## Helper lemmas -/

/-- If no header named `n` is present, `List.any` over the name test is
false. -/
theorem any_name_false_of_getHeader_none (hs : List Header) (n : String)
    (h : getHeader hs n = none) :
    hs.any (fun x => x.name = n) = false := by
  induction hs with
  | nil => rfl
  | cons a l ih =>
    unfold getHeader at h
    by_cases hn : a.name = n
    · rw [if_pos hn] at h
      exact absurd h (by simp)
    · rw [if_neg hn] at h
      simp [hn, ih h]

/-- Appending a header named `n` to a list without one makes it the
first (and only) match. -/
theorem getHeader_append_of_none (hs : List Header) (n v : String)
    (h : getHeader hs n = none) :
    getHeader (hs ++ [⟨n, v⟩]) n = some v := by
  induction hs with
  | nil => simp [getHeader]
  | cons a l ih =>
    unfold getHeader at h
    by_cases hn : a.name = n
    · rw [if_pos hn] at h
      exact absurd h (by simp)
    · rw [if_neg hn] at h
      rw [List.cons_append]
      unfold getHeader
      rw [if_neg hn]
      exact ih h

/-- `setHeader` on a list without a header named `n` yields a list
whose `n` entry is `v`. -/
theorem getHeader_setHeader (hs : List Header) (n v : String)
    (h : getHeader hs n = none) :
    getHeader (setHeader hs n v) n = some v := by
  unfold setHeader
  rw [any_name_false_of_getHeader_none hs n h]
  simpa using getHeader_append_of_none hs n v h

/-! ## Claim theorems -/

/-- Claim C1, counterexample: the claim fails for a getter that returns the
empty string.  The empty string is a non-null token, yet `if (token)`
is false for `""`, so the request goes out with no `Authorization`
header instead of `Bearer ` followed by the token. -/
theorem claim_c1_counterexample :
    getHeader
      (requestInterceptor (setTokenGetter (TokenGetterResult.value (some "")))
        defaultHeaders) "Authorization" = none ∧
    (none : Option String) ≠ some ("Bearer " ++ "") :=
  ⟨rfl, by decide⟩

/-- Claim C1 (amended): if a registered token getter returns a non-null,
non-empty token, the request's `Authorization` header is `Bearer `
followed by that token; if no getter is registered, or the getter
returns null or the empty string, the request keeps no `Authorization`
header.  Quantified over every request whose headers carry no prior
`Authorization` entry (as all requests of this client do). -/
theorem claim_c1 (hs : List Header) (t : String)
    (h : getHeader hs "Authorization" = none) :
    (t ≠ "" →
      getHeader
        (requestInterceptor (setTokenGetter (TokenGetterResult.value (some t)))
          hs) "Authorization" = some ("Bearer " ++ t)) ∧
    getHeader (requestInterceptor none hs) "Authorization" = none ∧
    getHeader (requestInterceptor (setTokenGetter (TokenGetterResult.value none))
      hs) "Authorization" = none ∧
    getHeader
      (requestInterceptor (setTokenGetter (TokenGetterResult.value (some "")))
        hs) "Authorization" = none := by
  refine ⟨fun ht => ?_, h, h, ?_⟩
  · show getHeader
      (if t = "" then hs else setHeader hs "Authorization" ("Bearer " ++ t))
      "Authorization" = some ("Bearer " ++ t)
    rw [if_neg ht]
    exact getHeader_setHeader hs "Authorization" ("Bearer " ++ t) h
  · show getHeader
      (if ("" : String) = "" then hs
       else setHeader hs "Authorization" ("Bearer " ++ "")) "Authorization" =
      none
    rw [if_pos rfl]
    exact h

/-- Claim C1 witness: a concrete run with token `"tok"` on the default
headers. -/
theorem claim_c1_witness :
    getHeader defaultHeaders "Authorization" = none ∧
    ("tok" : String) ≠ "" ∧
    getHeader
      (requestInterceptor
        (setTokenGetter (TokenGetterResult.value (some "tok")))
        defaultHeaders) "Authorization" = some ("Bearer " ++ "tok") :=
  ⟨rfl, by decide,
    (claim_c1 defaultHeaders "tok" rfl).1 (by decide)⟩

/-- Claim C9: if the registered token getter throws, the interceptor's
`try`/`catch` swallows the exception: the interceptor resolves (never
rejects), the request proceeds with its headers unchanged, and — since
no request of this client carries a prior `Authorization` header — it
is sent without one. -/
theorem claim_c9 :
    (∀ hs : List Header,
      requestInterceptorRun (setTokenGetter TokenGetterResult.throws) hs =
        Except.ok hs) ∧
    (∀ hs : List Header,
      requestInterceptor (setTokenGetter TokenGetterResult.throws) hs = hs) ∧
    getHeader
      (requestInterceptor (setTokenGetter TokenGetterResult.throws)
        defaultHeaders) "Authorization" = none :=
  ⟨fun _ => rfl, fun _ => rfl, rfl⟩

/-- Claim C4: the response interceptor returns successful responses
unchanged, and for every failed request it re-rejects the original
error unchanged to the caller after logging — no error is swallowed or
transformed. -/
theorem claim_c4 :
    (∀ (α : Type) (response : α),
      responseInterceptorFulfilled response = response) ∧
    (∀ (α : Type) (e : ApiError),
      (responseInterceptorRejected (α := α) e).2 = Except.error e) :=
  ⟨fun _ _ => rfl, fun _ _ => rfl⟩

/-- Claim C3: every query function of the fourteen listed hooks issues
exactly one GET request to its endpoint and returns the response
body's `data` field unchanged — its run is literally the singleton
request list paired with `(backend url).data`, for every backend, so
no transformation, filtering, retry or caching happens in the hook. -/
theorem claim_c3 (α : Type) (backend : Backend α) (timeWindow : String)
    (page : Int) (movieId : Option Int) (encode : String → String)
    (query : String) (filters : DiscoverFilters) :
    (useTrendingMovies timeWindow).queryFn backend =
      ⟨["/movies/trending?timeWindow=" ++ timeWindow],
        (backend ("/movies/trending?timeWindow=" ++ timeWindow)).data⟩ ∧
    (usePopularMovies page).queryFn backend =
      ⟨["/movies/popular?page=" ++ toString page],
        (backend ("/movies/popular?page=" ++ toString page)).data⟩ ∧
    (useTopRatedMovies page).queryFn backend =
      ⟨["/movies/top-rated?page=" ++ toString page],
        (backend ("/movies/top-rated?page=" ++ toString page)).data⟩ ∧
    (useNowPlayingMovies page).queryFn backend =
      ⟨["/movies/now-playing?page=" ++ toString page],
        (backend ("/movies/now-playing?page=" ++ toString page)).data⟩ ∧
    (useUpcomingMovies page).queryFn backend =
      ⟨["/movies/upcoming?page=" ++ toString page],
        (backend ("/movies/upcoming?page=" ++ toString page)).data⟩ ∧
    (useMovieDetails movieId).queryFn backend =
      ⟨["/movies/" ++ numStr movieId],
        (backend ("/movies/" ++ numStr movieId)).data⟩ ∧
    (useMovieCredits movieId).queryFn backend =
      ⟨["/movies/" ++ numStr movieId ++ "/credits"],
        (backend ("/movies/" ++ numStr movieId ++ "/credits")).data⟩ ∧
    (useMovieVideos movieId).queryFn backend =
      ⟨["/movies/" ++ numStr movieId ++ "/videos"],
        (backend ("/movies/" ++ numStr movieId ++ "/videos")).data⟩ ∧
    (useSimilarMovies movieId page).queryFn backend =
      ⟨["/movies/" ++ numStr movieId ++ "/similar?page=" ++ toString page],
        (backend ("/movies/" ++ numStr movieId ++ "/similar?page=" ++
          toString page)).data⟩ ∧
    (useMovieRecommendations movieId page).queryFn backend =
      ⟨["/movies/" ++ numStr movieId ++ "/recommendations?page=" ++
          toString page],
        (backend ("/movies/" ++ numStr movieId ++ "/recommendations?page=" ++
          toString page)).data⟩ ∧
    (useSearchMovies encode query page).queryFn backend =
      ⟨["/movies/search?query=" ++ encode query ++ "&page=" ++ toString page],
        (backend ("/movies/search?query=" ++ encode query ++ "&page=" ++
          toString page)).data⟩ ∧
    (useDiscoverMovies encode filters).queryFn backend =
      ⟨["/movies/discover?" ++ discoverParams encode filters],
        (backend ("/movies/discover?" ++ discoverParams encode filters)).data⟩ ∧
    (useMovieGenres (α := α)).queryFn backend =
      ⟨["/movies/genres"], (backend "/movies/genres").data⟩ ∧
    (useWatchlist (α := α)).queryFn backend =
      ⟨["/watchlist"], (backend "/watchlist").data⟩ := by
  refine ⟨rfl, rfl, rfl, rfl, rfl, rfl, rfl, rfl, rfl, rfl, rfl, rfl, rfl,
    rfl⟩

/-- Claim C2: for both watchlist mutations, a successful run's trace is
exactly request, response, invalidation of the `["watchlist"]` key,
success toast — the invalidation (which triggers the refetch) comes
after the server response; and for every outcome the first two trace
events are the request and the response, so nothing is invalidated
optimistically before the server answers. -/
theorem claim_c2 (item : WatchlistItem) (watchlistId : String)
    (outcome : Except ApiError Unit) :
    runAddToWatchlist item (Except.ok ()) =
      [Event.request ⟨Method.post, "/watchlist", some item⟩,
       Event.response (Except.ok ()),
       Event.invalidate [KeyPart.str "watchlist"],
       Event.toastSuccess "Added to watchlist!"] ∧
    runRemoveFromWatchlist watchlistId (Except.ok ()) =
      [Event.request ⟨Method.delete, "/watchlist/" ++ watchlistId, none⟩,
       Event.response (Except.ok ()),
       Event.invalidate [KeyPart.str "watchlist"],
       Event.toastSuccess "Removed from watchlist"] ∧
    (runAddToWatchlist item outcome).take 2 =
      [Event.request ⟨Method.post, "/watchlist", some item⟩,
       Event.response outcome] ∧
    (runRemoveFromWatchlist watchlistId outcome).take 2 =
      [Event.request ⟨Method.delete, "/watchlist/" ++ watchlistId, none⟩,
       Event.response outcome] :=
  ⟨rfl, rfl, rfl, rfl⟩

/-- Claim C8: a failed watchlist mutation's trace is exactly request,
response, error toast — no invalidation event occurs, so the cached
watchlist is left unchanged; the toast message contains the server
response's `error` field when present and is the fixed fallback when it
is absent. -/
theorem claim_c8 (item : WatchlistItem) (watchlistId : String)
    (e : ApiError) :
    runAddToWatchlist item (Except.error e) =
      [Event.request ⟨Method.post, "/watchlist", some item⟩,
       Event.response (Except.error e),
       Event.toastError (mutationErrorMessage e "Failed to add to watchlist")] ∧
    runRemoveFromWatchlist watchlistId (Except.error e) =
      [Event.request ⟨Method.delete, "/watchlist/" ++ watchlistId, none⟩,
       Event.response (Except.error e),
       Event.toastError
         (mutationErrorMessage e "Failed to remove from watchlist")] ∧
    (∀ k, Event.invalidate k ∉ runAddToWatchlist item (Except.error e)) ∧
    (∀ k,
      Event.invalidate k ∉ runRemoveFromWatchlist watchlistId
        (Except.error e)) ∧
    (errField e = none →
      mutationErrorMessage e "Failed to add to watchlist" =
        "Failed to add to watchlist" ∧
      mutationErrorMessage e "Failed to remove from watchlist" =
        "Failed to remove from watchlist") ∧
    (∀ s, errField e = some s →
      ∃ pre post,
        (mutationErrorMessage e "Failed to add to watchlist").data =
          pre ++ s.data ++ post) ∧
    (∀ s, errField e = some s →
      ∃ pre post,
        (mutationErrorMessage e "Failed to remove from watchlist").data =
          pre ++ s.data ++ post) := by
  refine ⟨rfl, rfl, ?_, ?_, ?_, ?_, ?_⟩
  · intro k
    simp [runAddToWatchlist]
  · intro k
    simp [runRemoveFromWatchlist]
  · intro h
    constructor <;> simp [mutationErrorMessage, h]
  · intro s h
    unfold mutationErrorMessage
    rw [h]
    by_cases hs : s = ""
    · refine ⟨("Failed to add to watchlist").data, [], ?_⟩
      simp [hs]
    · refine ⟨[], [], ?_⟩
      simp [hs]
  · intro s h
    unfold mutationErrorMessage
    rw [h]
    by_cases hs : s = ""
    · refine ⟨("Failed to remove from watchlist").data, [], ?_⟩
      simp [hs]
    · refine ⟨[], [], ?_⟩
      simp [hs]

/-- Claim C8 witness: concrete failed runs — a server error whose body
carries `error: "boom"` yields a toast containing `boom`; one with no
response yields the fixed fallback. -/
theorem claim_c8_witness :
    (∃ pre post,
      (mutationErrorMessage
        ⟨some ⟨500, some ⟨some "boom"⟩⟩, true, "Internal"⟩
        "Failed to add to watchlist").data =
        pre ++ ("boom").data ++ post) ∧
    mutationErrorMessage ⟨none, true, "Network Error"⟩
      "Failed to remove from watchlist" =
      "Failed to remove from watchlist" :=
  ⟨(claim_c8 ⟨some 1, ContentType.movie, "t", none, none⟩ "w1"
      ⟨some ⟨500, some ⟨some "boom"⟩⟩, true, "Internal"⟩).2.2.2.2.2.1
      "boom" rfl,
    ((claim_c8 ⟨some 1, ContentType.movie, "t", none, none⟩ "w1"
      ⟨none, true, "Network Error"⟩).2.2.2.2.1 rfl).2⟩

/-- Claim C7: the add-to-watchlist mutation function is a pure function of
its `item` argument: two runs with the same item but different cached
watchlist contents send the identical request, namely `POST /watchlist`
with exactly that item — no client-side deduplication or
reconciliation against the cache. -/
theorem claim_c7 (c1 c2 : Option (List WatchlistItem))
    (item : WatchlistItem) (outcome : Except ApiError Unit) :
    addMutationRequest c1 item = addMutationRequest c2 item ∧
    addMutationRequest c1 item =
      ⟨Method.post, "/watchlist", some item⟩ ∧
    (runAddToWatchlist item outcome).head? =
      some (Event.request ⟨Method.post, "/watchlist", some item⟩) :=
  ⟨rfl, rfl, rfl⟩

/-- Claim C6: the watchlist lives on the backend alone — the watchlist query
function returns exactly the `data` field of `GET /watchlist`'s
response body; removing item `X` sends `DELETE /watchlist/X` as its
first event; and the watchlist page renders purely from the query's
settled state (the fetched list itself when non-empty, the empty
branch otherwise), keeping no watchlist state of its own. -/
theorem claim_c6 (α : Type) (backend : Backend α)
    (wbackend : Backend (List α)) (X : String)
    (outcome : Except ApiError Unit) :
    (useWatchlist (α := α)).queryFn backend =
      ⟨["/watchlist"], (backend "/watchlist").data⟩ ∧
    (runRemoveFromWatchlist X outcome).head? =
      some (Event.request ⟨Method.delete, "/watchlist/" ++ X, none⟩) ∧
    watchlistPage wbackend =
      watchlistPageBranch false (some (wbackend "/watchlist").data) ∧
    (∀ l : List α,
      watchlistPageBranch false (some l) =
        if l.length = 0 then WatchlistRender.empty else WatchlistRender.grid l) ∧
    watchlistPageBranch (α := α) false none = WatchlistRender.empty :=
  ⟨rfl, rfl, rfl, fun _ => rfl, rfl⟩

/-- Claim C5, counterexample: the trending row's single request is
`/movies/trending?timeWindow=week` — it carries a `timeWindow`
parameter and no `page` parameter, contradicting the claim that each
of the three rows' calls carries the pagination parameter. -/
theorem claim_c5_counterexample :
    (homeTrending (α := Unit)).queryFn (fun _ => ⟨⟨[]⟩⟩) =
      ⟨[homeTrendingRequest], ⟨[]⟩⟩ ∧
    hasQueryParam homeTrendingRequest "page" = false ∧
    hasQueryParam homeTrendingRequest "timeWindow" = true :=
  ⟨rfl, by decide, by decide⟩

/-- Claim C5 (amended): each homepage catalog row is backed by exactly one
GET request — popular and top-rated carry the pagination parameter
(`page=1`), while trending instead carries the time-window parameter
(`timeWindow=week`) — and each row renders the `results` array of that
single call's response data. -/
theorem claim_c5 (α : Type) (backend : Backend (MoviesPage α)) :
    issuedRequests (homeTrending (α := α)) backend =
      ["/movies/trending?timeWindow=week"] ∧
    issuedRequests (homePopular (α := α)) backend =
      ["/movies/popular?page=1"] ∧
    issuedRequests (homeTopRated (α := α)) backend =
      ["/movies/top-rated?page=1"] ∧
    hasQueryParam "/movies/popular?page=1" "page" = true ∧
    hasQueryParam "/movies/top-rated?page=1" "page" = true ∧
    hasQueryParam "/movies/trending?timeWindow=week" "page" = false ∧
    homeRowMovies homeTrending backend =
      ((homeTrending (α := α)).queryFn backend).result.results ∧
    homeRowMovies homePopular backend =
      ((homePopular (α := α)).queryFn backend).result.results ∧
    homeRowMovies homeTopRated backend =
      ((homeTopRated (α := α)).queryFn backend).result.results :=
  ⟨rfl, rfl, rfl, by decide, by decide, by decide, rfl, rfl, rfl⟩

/-- Claim C10: with an id of `0` or `NaN` (`none`), every id-dependent query
(details, credits, videos, similar, recommendations, watchlist status)
is disabled and issues no request, and the movie detail page renders
its "Movie Not Found" branch instead of requesting `/movies/NaN`. -/
theorem claim_c10 (α : Type) (backend : Backend α) (page : Int)
    (ct : ContentType) :
    issuedRequests (useMovieDetails (α := α) none) backend = [] ∧
    issuedRequests (useMovieCredits (α := α) none) backend = [] ∧
    issuedRequests (useMovieVideos (α := α) none) backend = [] ∧
    issuedRequests (useSimilarMovies (α := α) none page) backend = [] ∧
    issuedRequests (useMovieRecommendations (α := α) none page) backend =
      [] ∧
    issuedRequests (useWatchlistStatus (α := α) none ct) backend = [] ∧
    movieDetailPage none backend = DetailRender.notFound ∧
    issuedRequests (useMovieDetails (α := α) (some 0)) backend = [] ∧
    issuedRequests (useMovieCredits (α := α) (some 0)) backend = [] ∧
    issuedRequests (useMovieVideos (α := α) (some 0)) backend = [] ∧
    issuedRequests (useSimilarMovies (α := α) (some 0) page) backend = [] ∧
    issuedRequests (useMovieRecommendations (α := α) (some 0) page)
      backend = [] ∧
    issuedRequests (useWatchlistStatus (α := α) (some 0) ct) backend = [] ∧
    movieDetailPage (some 0) backend = DetailRender.notFound :=
  ⟨rfl, rfl, rfl, rfl, rfl, rfl, rfl, rfl, rfl, rfl, rfl, rfl, rfl, rfl⟩

end NetflixClone
